import Mathlib

/-!
Verification of the python-pkg template:
src/generated_implementation/templates/python-pkg/src/app.py together with
its test module tests/test_app.py. The module constructs one Flask
application, registers a single route for the root path whose view function
returns a fixed greeting string, and starts the development server only when
run as the top level script. The hosting HTTP framework (Flask) is external
code, not part of this repository; where its behavior matters it is modelled
from the specification and marked as such in the doc comment.
-/

/-- HTTP request methods. -/
inductive Method
  | GET
  | HEAD
  | OPTIONS
  | POST
  | PUT
  | DELETE
  | PATCH
deriving DecidableEq, Repr

/-- A Flask application config mapping as used through app.config: string
keys, boolean values (the only value stored in this repository is the
TESTING flag). -/
abbrev Config := List (String × Bool)

/-- Reading a key from the config mapping: the most recent binding wins. -/
def configGet (key : String) : Config → Option Bool
  | [] => none
  | (k, v) :: rest => if k = key then some v else configGet key rest

/-- Writing a key into the config mapping, as in app.config[key] = val; the
new binding shadows any earlier one. -/
def configSet (key : String) (val : Bool) (c : Config) : Config :=
  (key, val) :: c

/-- The literal string returned by the view function hello, app.py line 13. -/
def greeting : String := "Hello from DStudio Python Implementation!"

/-- The view function hello, app.py lines 10 to 13: it reads no input,
touches no state, and returns the greeting string. It is passed the
application config so that its lack of effect on state is explicit. -/
def hello (cfg : Config) : String × Config := (greeting, cfg)

/-- An HTTP request as seen by routing: a method and a path. -/
structure Request where
  method : Method
  path : String
deriving DecidableEq, Repr

/-- Whether a response was produced by an application handler or by the
framework default error handling. -/
inductive ResponseSource
  | appHandler
  | frameworkDefault
deriving DecidableEq, Repr

/-- An HTTP response: status code, body, content type, and which side
produced it. -/
structure Response where
  status : Nat
  body : String
  contentType : String
  source : ResponseSource
deriving DecidableEq, Repr

/-- The request GET on the root path. -/
def rootGet : Request := { method := Method.GET, path := "/" }

/-- Modelled from the spec: the content type the external hosting framework
assigns by default to a handler that returns a plain string; the framework
is not under src, and the spec states this default is plain text. -/
def defaultStringContentType : String := "text/plain"

/-- Modelled from the spec: the external framework default handling for any
request that does not match the single registered route, GET on the root
path: not found for an unknown path, method not allowed for the known path
with another method. No application handler is involved in producing it. -/
def frameworkDefaultResponse (req : Request) : Response :=
  if req.path = "/" then
    { status := 405, body := "Method Not Allowed", contentType := "text/html",
      source := ResponseSource.frameworkDefault }
  else
    { status := 404, body := "Not Found", contentType := "text/html",
      source := ResponseSource.frameworkDefault }

/-- Modelled from the spec: framework dispatch, which is external framework
code. The module registers exactly one route, GET on the root path, handled
by hello; the framework wraps the returned string in a 200 response with
the default content type for a string return; every other request receives
the framework default handling. -/
def dispatch (cfg : Config) (req : Request) : Response × Config :=
  if req.method = Method.GET ∧ req.path = "/" then
    let r := hello cfg
    ({ status := 200, body := r.1, contentType := defaultStringContentType,
       source := ResponseSource.appHandler }, r.2)
  else
    (frameworkDefaultResponse req, cfg)

/-- A Flask application object: the name it was constructed with, its
config, and the paths of its registered routes. -/
structure FlaskApp where
  importName : String
  config : Config
  routePaths : List String
deriving DecidableEq, Repr

/-- A development server binding: host and port, as in app.run. -/
structure ServerBinding where
  host : String
  port : Nat
deriving DecidableEq, Repr

/-- Process wide state: the Flask application objects constructed so far,
in construction order, and the development server binding if one was
started. -/
structure ProcState where
  apps : List FlaskApp
  server : Option ServerBinding
deriving DecidableEq, Repr

/-- The top level statements of app.py that touch process state. -/
inductive TopStmt
  | constructApp
  | registerRoute (path : String)
  | mainGuard (host : String) (port : Nat)
deriving DecidableEq, Repr

/-- Effect of one top level statement of app.py on the process, given the
value the Python runtime assigned to the module name for this load:
constructApp appends a fresh application (app.py line 7), registerRoute
adds a route to that application (line 10), and mainGuard starts the
development server exactly when the module name equals the main sentinel
(lines 16 and 17). -/
def execStmt (moduleName : String) (st : ProcState) : TopStmt → ProcState
  | TopStmt.constructApp =>
      { st with
        apps := st.apps ++ [{ importName := moduleName, config := [], routePaths := [] }] }
  | TopStmt.registerRoute path =>
      { st with
        apps := st.apps.modifyHead (fun a => { a with routePaths := a.routePaths ++ [path] }) }
  | TopStmt.mainGuard host port =>
      if moduleName = "__main__" then
        { st with server := some { host := host, port := port } }
      else
        st

/-- The top level statements of app.py, in source order. -/
def appModuleStmts : List TopStmt :=
  [TopStmt.constructApp, TopStmt.registerRoute "/", TopStmt.mainGuard "0.0.0.0" 8080]

/-- Executing the module app.py under the given module name. -/
def loadAppModule (moduleName : String) (st : ProcState) : ProcState :=
  appModuleStmts.foldl (execStmt moduleName) st

/-- The fresh process before any module loads. -/
def initialState : ProcState := { apps := [], server := none }

/-- Loading tests/test_app.py: its top level imports the already loaded
src.app module and defines functions; it constructs no application and
starts no server, so process state is unchanged. -/
def loadTestModule (st : ProcState) : ProcState := st

/-- The operations the public surface of the module offers to importers:
mutate the shared config of the exported application, as the test fixture
does with the TESTING flag, or issue a request through a client. No
operation constructs a new application. -/
inductive ProcOp
  | setConfig (key : String) (val : Bool)
  | getRequest (req : Request)
deriving DecidableEq, Repr

/-- Effect of one public surface operation on process state. -/
def runOp (st : ProcState) : ProcOp → ProcState
  | ProcOp.setConfig key val =>
      { st with
        apps := st.apps.modifyHead (fun a => { a with config := configSet key val a.config }) }
  | ProcOp.getRequest req =>
      { st with
        apps := st.apps.modifyHead (fun a => { a with config := (dispatch a.config req).2 }) }

/-- Running a sequence of public surface operations. -/
def runOps (st : ProcState) (ops : List ProcOp) : ProcState :=
  ops.foldl runOp st

/-- The value of a config key on the exported application, as any importer
observes it. -/
def observedConfig (key : String) (st : ProcState) : Option Bool :=
  match st.apps with
  | [] => none
  | a :: _ => configGet key a.config

/-- Whether a public surface operation writes the given config key. -/
def writesKey (key : String) : ProcOp → Bool
  | ProcOp.setConfig k _ => k == key
  | ProcOp.getRequest _ => false

theorem dispatch_config_eq (cfg : Config) (req : Request) :
    (dispatch cfg req).2 = cfg := by
  unfold dispatch hello
  split <;> rfl

theorem modifyHead_length_eq (f : α → α) (l : List α) :
    (l.modifyHead f).length = l.length := by
  cases l <;> rfl

theorem runOp_apps_length (st : ProcState) (op : ProcOp) :
    (runOp st op).apps.length = st.apps.length := by
  cases op <;> simp [runOp, modifyHead_length_eq]

theorem runOps_apps_length (ops : List ProcOp) :
    ∀ st : ProcState, (runOps st ops).apps.length = st.apps.length := by
  induction ops with
  | nil => intro st; rfl
  | cons op rest ih =>
      intro st
      have h1 : runOps st (op :: rest) = runOps (runOp st op) rest := rfl
      rw [h1, ih, runOp_apps_length]

theorem observedConfig_runOp (key : String) (st : ProcState) (op : ProcOp)
    (h : writesKey key op = false) :
    observedConfig key (runOp st op) = observedConfig key st := by
  rcases hst : st.apps with _ | ⟨a, rest⟩
  · cases op <;> simp [runOp, observedConfig, hst, List.modifyHead]
  · cases op with
    | setConfig k v =>
        have hk : ¬ k = key := ne_of_beq_false h
        simp [runOp, observedConfig, hst, List.modifyHead, configSet, configGet, hk]
    | getRequest req =>
        simp [runOp, observedConfig, hst, List.modifyHead, dispatch_config_eq]

theorem observedConfig_runOps (key : String) (ops : List ProcOp) :
    ∀ st : ProcState, (∀ op ∈ ops, writesKey key op = false) →
      observedConfig key (runOps st ops) = observedConfig key st := by
  induction ops with
  | nil => intro st _; rfl
  | cons op rest ih =>
      intro st hall
      have h1 : runOps st (op :: rest) = runOps (runOp st op) rest := rfl
      rw [h1, ih (runOp st op) (fun o ho => hall o (List.mem_cons_of_mem op ho)),
        observedConfig_runOp key st op (hall op (List.mem_cons_self op rest))]

theorem observedConfig_setConfig (key : String) (val : Bool) (st : ProcState)
    (hne : st.apps ≠ []) :
    observedConfig key (runOp st (ProcOp.setConfig key val)) = some val := by
  rcases hst : st.apps with _ | ⟨a, rest⟩
  · exact absurd hst hne
  · simp [runOp, observedConfig, hst, List.modifyHead, configSet, configGet]

/-- C1: for every GET request to the root path, the response body is exactly
the greeting string, and therefore contains it as a substring. -/
theorem root_get_body_is_greeting (cfg : Config) :
    (dispatch cfg rootGet).1.body = greeting ∧
    List.IsInfix greeting.data ((dispatch cfg rootGet).1.body).data := by
  have h : (dispatch cfg rootGet).1.body = greeting := rfl
  exact ⟨h, by rw [h]⟩

/-- C2: for every GET request to the root path, the response status code is
exactly 200. -/
theorem root_get_status_200 (cfg : Config) :
    (dispatch cfg rootGet).1.status = 200 := rfl

/-- C3: for every GET request to the root path, the content type of the
response is the framework default for a string return value, and that
default is plain text. -/
theorem root_get_content_type (cfg : Config) :
    (dispatch cfg rootGet).1.contentType = defaultStringContentType ∧
    defaultStringContentType = "text/plain" :=
  ⟨rfl, rfl⟩

/-- C4: the handler for GET on the root path is deterministic: two
invocations, in any two states and in particular one right after the other
with no state change in between, produce identical bodies. -/
theorem root_get_deterministic (cfg cfg2 : Config) :
    (dispatch cfg rootGet).1.body = (dispatch cfg2 rootGet).1.body ∧
    (dispatch (dispatch cfg rootGet).2 rootGet).1.body =
      (dispatch cfg rootGet).1.body :=
  ⟨rfl, rfl⟩

/-- C5: for every request other than GET on the root path, the response is
exactly the framework default not found or method not allowed handling,
produced with no application handler involved, and state is unchanged. -/
theorem non_root_get_default_handling (cfg : Config) (req : Request)
    (h : ¬ (req.method = Method.GET ∧ req.path = "/")) :
    dispatch cfg req = (frameworkDefaultResponse req, cfg) ∧
    (frameworkDefaultResponse req).source = ResponseSource.frameworkDefault := by
  constructor
  · simp [dispatch, h]
  · unfold frameworkDefaultResponse
    split <;> rfl

theorem non_root_get_default_handling_witness :
    dispatch [] { method := Method.POST, path := "/" } =
      (frameworkDefaultResponse { method := Method.POST, path := "/" }, []) ∧
    (frameworkDefaultResponse { method := Method.POST, path := "/" }).source =
      ResponseSource.frameworkDefault :=
  non_root_get_default_handling [] { method := Method.POST, path := "/" }
    (by decide)

/-- C6: the development server is started, bound to the wildcard host on
port 8080, exactly when the module runs as the top level script; loading
under any other module name starts no server. -/
theorem server_start_iff_main :
    (loadAppModule "__main__" initialState).server =
      some { host := "0.0.0.0", port := 8080 } ∧
    ∀ n : String, n ≠ "__main__" →
      (loadAppModule n initialState).server = none := by
  constructor
  · rfl
  · intro n h
    simp [loadAppModule, appModuleStmts, execStmt, initialState, h]

theorem server_start_iff_main_witness :
    (loadAppModule "src.app" initialState).server = none :=
  server_start_iff_main.2 "src.app" (by decide)

/-- C7: handling a GET request to the root path has no side effects: the
view function returns the application state unchanged, and dispatch of any
request leaves the state unchanged. -/
theorem root_get_no_side_effects (cfg : Config) (req : Request) :
    (hello cfg).2 = cfg ∧ (dispatch cfg req).2 = cfg :=
  ⟨rfl, dispatch_config_eq cfg req⟩

/-- C8: loading the application module constructs exactly one application
object; loading the test module constructs no further one, and no sequence
of public surface operations ever changes the count, so the single instance
persists for the process lifetime. -/
theorem single_app_instance :
    (loadAppModule "src.app" initialState).apps.length = 1 ∧
    loadTestModule (loadAppModule "src.app" initialState) =
      loadAppModule "src.app" initialState ∧
    ∀ ops : List ProcOp,
      (runOps (loadAppModule "src.app" initialState) ops).apps.length = 1 := by
  refine ⟨rfl, rfl, ?_⟩
  intro ops
  rw [runOps_apps_length]
  rfl

/-- C10: application config is globally shared mutable state: after any
importer sets the TESTING flag on the shared instance, every later observer
sees the flag for as long as no further operation writes it, nothing resets
it, and no sequence of public surface operations can create an independent
instance. -/
theorem config_globally_shared (st : ProcState) (ops : List ProcOp)
    (hne : st.apps ≠ [])
    (hnw : ∀ op ∈ ops, writesKey "TESTING" op = false) :
    observedConfig "TESTING"
        (runOps (runOp st (ProcOp.setConfig "TESTING" true)) ops) = some true ∧
    (runOps (runOp st (ProcOp.setConfig "TESTING" true)) ops).apps.length =
      st.apps.length := by
  constructor
  · rw [observedConfig_runOps "TESTING" ops _ hnw,
      observedConfig_setConfig "TESTING" true st hne]
  · rw [runOps_apps_length, runOp_apps_length]

theorem config_globally_shared_witness :
    observedConfig "TESTING"
        (runOps (runOp (loadAppModule "src.app" initialState)
            (ProcOp.setConfig "TESTING" true))
          [ProcOp.getRequest rootGet]) = some true ∧
    (runOps (runOp (loadAppModule "src.app" initialState)
        (ProcOp.setConfig "TESTING" true))
      [ProcOp.getRequest rootGet]).apps.length =
      (loadAppModule "src.app" initialState).apps.length :=
  config_globally_shared (loadAppModule "src.app" initialState)
    [ProcOp.getRequest rootGet] (by decide) (by decide)
